import Mathlib

/-!
Verification development for the mashup pipeline script `102316091.py`.

The script searches a video platform for an artist, downloads the audio of
the top results with bounded retry, trims each downloaded clip to a
requested duration, and concatenates the clips into a single output file.
The definitions below are shallow embeddings of the functions of the
script; each theorem settles one claim of its specification.
-/

/-! ## Substring test and retryable-error classification

Line 83 of the script classifies an error message as retryable when it
contains the substring `403`, `Forbidden` or `HTTP Error`.
-/

/-- `hasSubList pat l` holds when `pat` occurs as a contiguous sublist of `l`;
this models Python `pat in l` on strings. -/
def hasSubList (pat : List Char) : List Char → Bool
  | [] => pat.isEmpty
  | c :: rest => pat.isPrefixOf (c :: rest) || hasSubList pat rest

/-- Python `pat in s` for strings. -/
def strContains (s pat : String) : Bool :=
  hasSubList pat.toList s.toList

/-- Line 83: `'403' in error_msg or 'Forbidden' in error_msg or 'HTTP Error' in error_msg`. -/
def isRetryableMsg (msg : String) : Bool :=
  strContains msg "403" || strContains msg "Forbidden" || strContains msg "HTTP Error"

/-! ## `download_one` (lines 10-94)

The underlying `ydl.download([url])` call is modelled by a function
`fetch : Nat → FetchOutcome` giving the outcome of each successive attempt,
and the random jitter `random.uniform(0, 1)` by `jitter : Nat → ℚ`.
The embedding returns the Python return value, the number of fetch attempts
performed, and the list of back-off delays slept, in order.
-/

/-- Outcome of one underlying fetch attempt: success, or an exception whose
message is `msg`. -/
inductive FetchOutcome where
  | success : FetchOutcome
  | failure (msg : String) : FetchOutcome
deriving DecidableEq

/-- Body of the `for attempt in range(max_retries)` loop of `download_one`
(lines 67-92), iterating over the list of remaining attempt indices.
Returns (return value, number of fetch attempts performed, delays slept). -/
def download_one_loop (fetch : Nat → FetchOutcome) (jitter : Nat → ℚ)
    (max_retries : Nat) : List Nat → Bool × Nat × List ℚ
  | [] => (false, max_retries, [])                      -- line 94: return False
  | attempt :: rest =>
    -- lines 70-73: sleep (2 ** attempt) + random.uniform(0, 1) when attempt > 0
    let sleeps0 : List ℚ := if 0 < attempt then [2 ^ attempt + jitter attempt] else []
    match fetch attempt with
    | .success => (true, attempt + 1, sleeps0)          -- line 77: return True
    | .failure msg =>
      if attempt < max_retries - 1 then
        if isRetryableMsg msg then
          -- line 85: continue with the next iteration
          let r := download_one_loop fetch jitter max_retries rest
          (r.1, r.2.1, sleeps0 ++ r.2.2)
        else (false, attempt + 1, sleeps0)              -- line 89: return False
      else (false, attempt + 1, sleeps0)                -- line 92: return False

/-- `download_one` (line 10): the retry loop over `range(max_retries)`;
the script calls it with the default `max_retries = 3`. -/
def download_one (fetch : Nat → FetchOutcome) (jitter : Nat → ℚ)
    (max_retries : Nat) : Bool × Nat × List ℚ :=
  download_one_loop fetch jitter max_retries (List.range max_retries)

/-! ## Audio clips and trimming (lines 140-146 and 211-224)

Only the duration of a decoded clip matters to the trim policy, so an
`AudioFileClip` is its duration.
-/

/-- A decoded audio clip, identified by its duration in seconds. -/
structure AudioClip where
  duration : ℚ
deriving DecidableEq

/-- moviepy `clip.subclipped(s, e)`: the part of the clip on `[s, e)`, of
duration `e - s`. -/
def AudioClip.subclipped (_clip : AudioClip) (s e : ℚ) : AudioClip :=
  ⟨e - s⟩

/-- `process_one_audio` (lines 211-224) and the identical cut in
`process_worker` (lines 142-146): keep `[0, duration)` when the clip is
longer than `duration`, otherwise keep the clip unmodified.  The
`AudioFileClip(file_path)` load is abstracted to an optional clip where
`none` is a decode error, which the function turns into `None`. -/
def process_one_audio (loaded : Option AudioClip) (duration : ℚ) : Option AudioClip :=
  match loaded with
  | none => none                                       -- lines 222-224
  | some clip =>
    if clip.duration > duration then some (clip.subclipped 0 duration)  -- lines 218-219
    else some clip                                     -- lines 220-221

/-- moviepy `concatenate_audioclips`: durations add. -/
def concatenate_audioclips (clips : List AudioClip) : AudioClip :=
  ⟨(clips.map AudioClip.duration).sum⟩

/-! ## Merge step of `process_audios` (lines 251-267) -/

/-- What the merge step did: wrote the concatenated output file, or skipped
the write. -/
inductive MergeOutcome where
  | wrote (merged : AudioClip) : MergeOutcome
  | skippedWrite : MergeOutcome
deriving DecidableEq

/-- Lines 251-259 of `process_audios`: `if clips:` concatenate and write the
output file, `else` print `No audio clips to merge.` and fall through; no
branch raises, so the result is always `ok`. -/
def process_audios_merge (clips : List AudioClip) : Except String MergeOutcome :=
  if clips.isEmpty then .ok .skippedWrite              -- lines 258-259
  else .ok (.wrote (concatenate_audioclips clips))     -- lines 252-257

/-! ## `clean_up` (lines 269-275) -/

/-- The filesystem abstracted to which directory paths exist. -/
abbrev DirState := String → Bool

/-- `shutil.rmtree(directory)`: removes the tree when present and raises
`FileNotFoundError` when the directory does not exist. -/
def rmtree (fs : DirState) (directory : String) : Except String DirState :=
  if fs directory then .ok (fun p => if p = directory then false else fs p)
  else .error "FileNotFoundError"

/-- `clean_up` (lines 269-275): `if os.path.exists(directory):
shutil.rmtree(directory)`. -/
def clean_up (fs : DirState) (directory : String) : Except String DirState :=
  if fs directory then rmtree fs directory
  else .ok fs

/-! ## Download phase bookkeeping of `download_and_convert` (lines 185-203) -/

/-- Lines 197-203: after all futures completed, `results` holds the return
value of each `download_and_queue` call; the phase raises the no-downloads
exception exactly when `successful_downloads == 0`, and otherwise carries the
count on toward merging. -/
def downloadPhaseOutcome (results : List Bool) : Except String Nat :=
  let successful_downloads := results.count true
  if successful_downloads = 0 then
    .error "No videos were downloaded successfully. Please check your internet connection or try again later."
  else .ok successful_downloads

/-! ## Completion queue and stop-signal protocol (lines 126-195)

`file_queue` is a FIFO `queue.Queue`.  All paths are put by the download
pool (line 177), whose futures are awaited (line 187) before the `None`
stop signals are put, one per processing worker (lines 190-191).  A
processing worker (lines 132-156) pops entries and exits its loop only on
popping `None` (lines 136-138).
-/

/-- Line 159: `num_process_workers = 11`. -/
def num_process_workers : Nat := 11

/-- FIFO contents of `file_queue` over a whole run: the successfully
downloaded paths in the order they were put, then one `None` per worker. -/
def queueEntries (paths : List String) (workers : Nat) : List (Option String) :=
  paths.map some ++ List.replicate workers none

/-- `schedule i` names the worker that performs the `i`-th pop of the FIFO
queue.  Worker `w` exits at pop `i` when that pop hands it a stop signal and
no earlier pop of `w` did (lines 136-138: the loop breaks only on `None`). -/
def workerExitsAt (entries : List (Option String)) (schedule : Nat → Nat)
    (w i : Nat) : Prop :=
  entries[i]? = some none ∧ schedule i = w ∧
    ∀ j, j < i → schedule j = w → entries[j]? ≠ some none

/-! ## Python name resolution at line 162

`download_and_convert` starts its processing workers with
`threading.Thread(target=process_worker, args=(duration,), daemon=True)`.
The tuple expression evaluates the name `duration`; the lists below record
every name the script could resolve there, read off from the source.
-/

/-- Parameters and local variables of `download_and_convert`
(lines 96-209): its three parameters and every name assigned in its body. -/
def download_and_convert_locals : List String :=
  ["singer", "n", "output_dir",
   "search_opts", "urls", "ydl", "info",
   "file_queue", "processed_clips", "processing_lock",
   "successful_downloads", "download_lock",
   "process_worker", "num_process_workers", "process_threads",
   "_", "t", "download_and_queue", "executor", "futures", "e"]

/-- Module-level names of the script: imports (lines 1-8) and the five
function definitions. -/
def module_globals : List String :=
  ["sys", "os", "yt_dlp", "AudioFileClip", "concatenate_audioclips",
   "shutil", "concurrent", "queue", "threading",
   "download_one", "download_and_convert", "process_one_audio",
   "process_audios", "clean_up", "main"]

/-- Python builtins the script could still reach. -/
def py_builtins : List String :=
  ["print", "range", "len", "max", "min", "str", "int", "float", "bool",
   "list", "dict", "tuple", "set", "sum", "abs", "zip", "map", "filter",
   "sorted", "enumerate", "isinstance", "open", "Exception", "ValueError",
   "TypeError", "NameError", "True", "False", "None"]

/-- Every name resolvable inside `download_and_convert`. -/
def download_and_convert_scope : List String :=
  download_and_convert_locals ++ module_globals ++ py_builtins

/-- A Python-level error. -/
inductive PyError where
  | typeError (message : String) : PyError
  | nameError (name : String) : PyError
  | exception (message : String) : PyError
deriving DecidableEq

/-- Evaluating a bare name: `NameError` when no scope binds it. -/
def lookupName (scope : List String) (x : String) : Except PyError Unit :=
  if scope.contains x then .ok ()
  else .error (.nameError x)

/-- The observable download phase of one `download_and_convert` run:
which URLs were submitted to the download pool, and the outcome. -/
structure PipelinePhase where
  dispatched : List String
  outcome : Except PyError Nat

/-- `download_and_convert` (lines 96-209) after URL resolution, with
`fetchOk url` abstracting the result of `download_one(url, output_dir)`:
line 162 evaluates the thread-argument tuple `(duration,)` before any
worker thread or download starts; only if that name lookup succeeds are the
downloads submitted (line 186) and counted (lines 197-203). -/
def download_and_convert (urls : List String) (fetchOk : String → Bool) :
    PipelinePhase :=
  match lookupName download_and_convert_scope "duration" with
  | .error e => ⟨[], .error e⟩
  | .ok _ =>
    match downloadPhaseOutcome (urls.map fetchOk) with
    | .error msg => ⟨urls, .error (.exception msg)⟩
    | .ok count => ⟨urls, .ok count⟩

/-! ## CLI validation and `main` (lines 277-303) -/

/-- How `main` leaves argument validation: `sys.exit(1)` after a printed
message, or the validated values. -/
inductive CliResult where
  | exit1 (message : String) : CliResult
  | valid (singer_name : String) (num_videos : Int) (audio_duration : Int)
      (output_file : String) : CliResult
deriving DecidableEq

/-- Digits of a decimal numeral, accumulated left to right; `none` when a
non-digit occurs. -/
def parseNatDigits : Nat → List Char → Option Nat
  | _, [] => none
  | acc, [c] => if c.isDigit then some (acc * 10 + (c.toNat - 48)) else none
  | acc, c :: cs =>
    if c.isDigit then parseNatDigits (acc * 10 + (c.toNat - 48)) cs else none

/-- Python `int(s)` on a CLI argument, modelled on decimal numerals with an
optional leading minus sign; `none` is a raised `ValueError`.  (Surrounding
whitespace, a leading plus and digit-group underscores are not modelled.) -/
def pyInt (s : String) : Option Int :=
  match s.toList with
  | '-' :: cs => (parseNatDigits 0 cs).map (fun v => -(v : Int))
  | cs => (parseNatDigits 0 cs).map (fun v => (v : Int))

/-- Argument validation of `main` (lines 280-301), on `sys.argv`. -/
def validate_args (argv : List String) : CliResult :=
  if argv.length ≠ 5 then                              -- lines 280-282
    .exit1 "Usage: python 102316091.py <SingerName> <NumberOfVideos> <AudioDuration> <OutputFileName>"
  else
    match pyInt (argv.getD 2 ""), pyInt (argv.getD 3 "") with
    | some num_videos, some audio_duration =>
      if num_videos ≤ 10 then                          -- lines 295-297
        .exit1 "Error: NumberOfVideos must be greater than 10."
      else if audio_duration < 20 then                 -- lines 299-301
        .exit1 "Error: AudioDuration must be greater than or equal to 20."
      else .valid (argv.getD 1 "") num_videos audio_duration (argv.getD 4 "")
    | _, _ =>                                          -- lines 285-290
      .exit1 "Error: NumberOfVideos and AudioDuration must be integers."

/-- Observable effects of one invocation of `main` (lines 277-303). -/
structure MainRun where
  raised : Option PyError
  exitCode : Option Nat
  tempDirsCreated : Nat
  cleanUpCalls : Nat
deriving DecidableEq

/-- Binding `argCount` positional arguments against a function declaring
`paramCount` parameters: a `TypeError` unless the counts agree. -/
def bindPositional (fname : String) (paramCount argCount : Nat) :
    Except PyError Unit :=
  if argCount = paramCount then .ok ()
  else .error (.typeError (fname ++ "() takes " ++ toString paramCount ++
    " positional arguments but " ++ toString argCount ++ " were given"))

/-- `def main():` (line 277) declares no parameters. -/
def main_param_count : Nat := 0

/-- `main` (lines 277-303): after validation passes, the only remaining
statement is line 303, `main(singer_name, num_videos, audio_duration,
output_file)` — four positional arguments bound against the zero parameters
of `def main():`.  No statement of `main` creates a directory or calls
`clean_up`. -/
def py_main (argv : List String) : MainRun :=
  match validate_args argv with
  | .exit1 _ => ⟨none, some 1, 0, 0⟩
  | .valid _ _ _ _ =>
    match bindPositional "main" main_param_count 4 with
    | .error e => ⟨some e, none, 0, 0⟩
    | .ok _ => ⟨none, some 0, 0, 0⟩  -- unreachable: 4 arguments never bind to 0 parameters

/-! ### Lemmas about the retry loop -/

/-- The loop entered at attempt `a` has performed at least `a` attempts when
it returns. -/
theorem download_one_loop_attempts_ge (fetch : Nat → FetchOutcome) (jitter : Nat → ℚ)
    (m : Nat) : ∀ n a, a + n = m →
    a ≤ (download_one_loop fetch jitter m (List.range' a n)).2.1 := by
  intro n
  induction n with
  | zero =>
    intro a ha
    simp only [List.range', download_one_loop]
    omega
  | succ n ih =>
    intro a ha
    rw [List.range'_succ]
    simp only [download_one_loop]
    cases hf : fetch a with
    | success => simp
    | failure msg =>
      by_cases h1 : a < m - 1
      · by_cases h2 : isRetryableMsg msg
        · have h3 := ih (a + 1) (by omega)
          simp only [h1, h2, if_true]
          omega
        · simp [h1, h2]
      · simp [h1]

/-- Shape of the slept delays: the loop entered at attempt `a` sleeps exactly
once before each executed attempt numbered at least 1, for
`2 ^ attempt + jitter attempt` seconds. -/
theorem download_one_loop_sleeps (fetch : Nat → FetchOutcome) (jitter : Nat → ℚ)
    (m : Nat) : ∀ n a, a + n = m →
    (download_one_loop fetch jitter m (List.range' a n)).2.2 =
      (List.range' (max a 1)
        ((download_one_loop fetch jitter m (List.range' a n)).2.1 - max a 1)).map
        (fun t => 2 ^ t + jitter t) := by
  intro n
  induction n with
  | zero =>
    intro a ha
    simp only [List.range', download_one_loop]
    have h0 : m - max a 1 = 0 := by omega
    simp [h0]
  | succ n ih =>
    intro a ha
    rw [List.range'_succ]
    simp only [download_one_loop]
    cases hf : fetch a with
    | success =>
      by_cases h0 : 0 < a
      · have hmax : max a 1 = a := by omega
        have hone : a + 1 - a = 1 := by omega
        simp [h0, hmax, hone, List.range'_succ]
      · have ha0 : a = 0 := by omega
        simp [ha0]
    | failure msg =>
      by_cases h1 : a < m - 1
      · by_cases h2 : isRetryableMsg msg
        · have hge := download_one_loop_attempts_ge fetch jitter m n (a + 1) (by omega)
          have ih1 := ih (a + 1) (by omega)
          simp only [h1, h2, if_true]
          by_cases h0 : 0 < a
          · have hmax : max a 1 = a := by omega
            have hmax1 : max (a + 1) 1 = a + 1 := by omega
            rw [hmax1] at ih1
            have hsplit :
                (download_one_loop fetch jitter m (List.range' (a + 1) n)).2.1 - a =
                ((download_one_loop fetch jitter m (List.range' (a + 1) n)).2.1 - (a + 1)) + 1 := by
              omega
            simp only [h0, if_true, hmax, ih1, hsplit, List.range'_succ, List.map_cons,
              List.cons_append, List.nil_append]
          · have ha0 : a = 0 := by omega
            have hmax1 : max (a + 1) 1 = a + 1 := by omega
            rw [hmax1] at ih1
            subst ha0
            norm_num at ih1
            simp [ih1]
        · simp only [h1, h2, if_true, if_false]
          by_cases h0 : 0 < a
          · have hmax : max a 1 = a := by omega
            have hone : a + 1 - a = 1 := by omega
            simp [h0, hmax, hone, List.range'_succ]
          · have ha0 : a = 0 := by omega
            simp [ha0]
      · simp only [h1, if_false]
        by_cases h0 : 0 < a
        · have hmax : max a 1 = a := by omega
          have hone : a + 1 - a = 1 := by omega
          simp [h0, hmax, hone, List.range'_succ]
        · have ha0 : a = 0 := by omega
          simp [ha0]

/-- If every attempt from `a` up to `k` fails with a retryable message and
attempt `k` succeeds, the loop entered at `a` returns success after attempt
`k`, having performed `k + 1` attempts. -/
theorem download_one_loop_retry_success (fetch : Nat → FetchOutcome) (jitter : Nat → ℚ)
    (m : Nat) : ∀ n a k, a + n = m → a ≤ k → k < m →
    (∀ i, a ≤ i → i < k → ∃ msg, fetch i = FetchOutcome.failure msg ∧ isRetryableMsg msg = true) →
    fetch k = FetchOutcome.success →
    (download_one_loop fetch jitter m (List.range' a n)).1 = true ∧
    (download_one_loop fetch jitter m (List.range' a n)).2.1 = k + 1 := by
  intro n
  induction n with
  | zero =>
    intro a k ha hak hkm _ _
    omega
  | succ n ih =>
    intro a k ha hak hkm hfail hsucc
    rw [List.range'_succ]
    simp only [download_one_loop]
    rcases Nat.eq_or_lt_of_le hak with heq | hlt
    · subst heq
      rw [hsucc]
      simp
    · obtain ⟨msg, hf, hr⟩ := hfail a (le_refl a) hlt
      rw [hf]
      have h1 : a < m - 1 := by omega
      simp only [h1, hr, if_true]
      exact ih (a + 1) k (by omega) (by omega) hkm
        (fun i hi hik => hfail i (by omega) hik) hsucc

/-- C2: for every source and every `max_retries ≥ 1`, if the underlying fetch
fails with a retryable message (containing `403`, `Forbidden` or `HTTP Error`)
exactly `k < max_retries` times and then succeeds, `download_one` returns
`True` after exactly `k + 1` fetch attempts; and if every fetch attempt fails
with a non-retryable message, `download_one` returns `False` after exactly one
attempt, without consuming the remaining retries. -/
theorem claim_C2_download_one_retry (fetch : Nat → FetchOutcome) (jitter : Nat → ℚ)
    (max_retries k : Nat) (hm : 1 ≤ max_retries) :
    (k < max_retries →
      (∀ i, i < k → ∃ msg, fetch i = FetchOutcome.failure msg ∧ isRetryableMsg msg = true) →
      fetch k = FetchOutcome.success →
      (download_one fetch jitter max_retries).1 = true ∧
      (download_one fetch jitter max_retries).2.1 = k + 1) ∧
    ((∀ i, ∃ msg, fetch i = FetchOutcome.failure msg ∧ isRetryableMsg msg = false) →
      (download_one fetch jitter max_retries).1 = false ∧
      (download_one fetch jitter max_retries).2.1 = 1) := by
  constructor
  · intro hk hfail hsucc
    have h := download_one_loop_retry_success fetch jitter max_retries max_retries 0 k
      (by omega) (Nat.zero_le k) hk (fun i _ hik => hfail i hik) hsucc
    simpa [download_one, List.range_eq_range'] using h
  · intro hfatal
    obtain ⟨msg, hf, hr⟩ := hfatal 0
    obtain ⟨n, rfl⟩ : ∃ n, max_retries = n + 1 := ⟨max_retries - 1, by omega⟩
    rw [download_one, List.range_eq_range', List.range'_succ]
    simp only [download_one_loop, hf]
    by_cases h1 : 0 < n
    · simp [h1, hr]
    · simp [h1]

/-- C8: `download_one` sleeps no delay before the first fetch attempt, and
before each executed retry attempt `a ≥ 1` it sleeps exactly
`2 ^ a + jitter a` seconds, with the jitter drawn from `[0, 1)`, so every
delay lies in `[2 ^ a, 2 ^ a + 1)`. -/
theorem claim_C8_download_one_backoff (fetch : Nat → FetchOutcome) (jitter : Nat → ℚ)
    (max_retries : Nat) (hj : ∀ a, 0 ≤ jitter a ∧ jitter a < 1) :
    (download_one fetch jitter max_retries).2.2 =
      (List.range' 1 ((download_one fetch jitter max_retries).2.1 - 1)).map
        (fun a => 2 ^ a + jitter a) ∧
    ∀ s ∈ (download_one fetch jitter max_retries).2.2,
      ∃ a, 1 ≤ a ∧ s = 2 ^ a + jitter a ∧ 2 ^ a ≤ s ∧ s < 2 ^ a + 1 := by
  have hshape := download_one_loop_sleeps fetch jitter max_retries max_retries 0 (by omega)
  simp only [Nat.max_eq_right (by omega : 0 ≤ 1)] at hshape
  have hshape' :
      (download_one fetch jitter max_retries).2.2 =
        (List.range' 1 ((download_one fetch jitter max_retries).2.1 - 1)).map
          (fun t => 2 ^ t + jitter t) := by
    simpa [download_one, List.range_eq_range'] using hshape
  refine ⟨hshape', ?_⟩
  intro s hs
  rw [hshape'] at hs
  obtain ⟨a, ha, rfl⟩ := List.mem_map.mp hs
  obtain ⟨h1a, _⟩ := List.mem_range'_1.mp ha
  refine ⟨a, h1a, rfl, le_add_of_nonneg_right (hj a).1, ?_⟩
  have := (hj a).2
  linarith

/-- Witness for C2: one retryable `403` failure then success gives success in
2 attempts; an always-fatal source gives failure in 1 attempt. -/
theorem claim_C2_download_one_retry_witness :
    ((download_one
        (fun i => if i = 0 then FetchOutcome.failure "HTTP Error 403: Forbidden"
                  else FetchOutcome.success)
        (fun _ => 0) 3).1 = true ∧
     (download_one
        (fun i => if i = 0 then FetchOutcome.failure "HTTP Error 403: Forbidden"
                  else FetchOutcome.success)
        (fun _ => 0) 3).2.1 = 2) ∧
    ((download_one (fun _ => FetchOutcome.failure "unable to extract video data")
        (fun _ => 0) 3).1 = false ∧
     (download_one (fun _ => FetchOutcome.failure "unable to extract video data")
        (fun _ => 0) 3).2.1 = 1) := by
  constructor
  · exact (claim_C2_download_one_retry
      (fun i => if i = 0 then FetchOutcome.failure "HTTP Error 403: Forbidden"
                else FetchOutcome.success)
      (fun _ => 0) 3 1 (by norm_num)).1 (by norm_num)
      (fun i hi => by
        interval_cases i
        exact ⟨"HTTP Error 403: Forbidden", rfl, by decide⟩)
      rfl
  · exact (claim_C2_download_one_retry
      (fun _ => FetchOutcome.failure "unable to extract video data")
      (fun _ => 0) 3 0 (by norm_num)).2
      (fun i => ⟨"unable to extract video data", rfl, by decide⟩)

/-- Witness for C8: with jitter constantly `1/2`, a run that retries once
sleeps exactly the delays given by the back-off formula, each within its
stated bounds. -/
theorem claim_C8_download_one_backoff_witness :
    (∀ a : Nat, (0 : ℚ) ≤ (fun _ : Nat => (1 : ℚ) / 2) a ∧
        (fun _ : Nat => (1 : ℚ) / 2) a < 1) ∧
    ((download_one
        (fun i => if i = 0 then FetchOutcome.failure "403" else FetchOutcome.success)
        (fun _ : Nat => (1 : ℚ) / 2) 3).2.2 =
      (List.range' 1
        ((download_one
          (fun i => if i = 0 then FetchOutcome.failure "403" else FetchOutcome.success)
          (fun _ : Nat => (1 : ℚ) / 2) 3).2.1 - 1)).map
        (fun a => 2 ^ a + (fun _ : Nat => (1 : ℚ) / 2) a) ∧
     ∀ s ∈ (download_one
        (fun i => if i = 0 then FetchOutcome.failure "403" else FetchOutcome.success)
        (fun _ : Nat => (1 : ℚ) / 2) 3).2.2,
      ∃ a, 1 ≤ a ∧ s = 2 ^ a + (fun _ : Nat => (1 : ℚ) / 2) a ∧
        2 ^ a ≤ s ∧ s < 2 ^ a + 1) :=
  ⟨fun _ => by norm_num,
   claim_C8_download_one_backoff
     (fun i => if i = 0 then FetchOutcome.failure "403" else FetchOutcome.success)
     (fun _ : Nat => (1 : ℚ) / 2) 3 (fun _ => by norm_num)⟩

/-- C3: every processed clip produced from an input clip of duration `d`
with requested trim duration `t` is trimmed to `[0, t)` when `d > t` and
kept unmodified otherwise, so its duration is `min d t` and at most `t`. -/
theorem claim_C3_trim_duration (clip : AudioClip) (t : ℚ) (c : AudioClip)
    (h : process_one_audio (some clip) t = some c) :
    c.duration = min clip.duration t ∧ c.duration ≤ t := by
  simp only [process_one_audio] at h
  by_cases hgt : clip.duration > t
  · rw [if_pos hgt] at h
    injection h with h
    subst h
    constructor
    · simp [AudioClip.subclipped, min_eq_right hgt.le]
    · simp [AudioClip.subclipped]
  · rw [if_neg hgt] at h
    injection h with h
    subst h
    push_neg at hgt
    exact ⟨(min_eq_left hgt).symm, hgt⟩

/-- Witness for C3: a 30-second clip trimmed to 20 seconds. -/
theorem claim_C3_trim_duration_witness :
    process_one_audio (some ⟨(30 : ℚ)⟩) 20 = some ⟨(20 : ℚ)⟩ ∧
    ((⟨(20 : ℚ)⟩ : AudioClip).duration = min (⟨(30 : ℚ)⟩ : AudioClip).duration 20 ∧
      (⟨(20 : ℚ)⟩ : AudioClip).duration ≤ 20) := by
  have h : process_one_audio (some ⟨(30 : ℚ)⟩) 20 = some ⟨(20 : ℚ)⟩ := by
    norm_num [process_one_audio, AudioClip.subclipped]
  exact ⟨h, claim_C3_trim_duration ⟨30⟩ 20 ⟨20⟩ h⟩

/-- Counterexample to C6 as stated: with zero surviving clips the merge step
of `process_audios` returns normally after skipping the write — it raises
nothing, so no `NoClipsError` is reported and no failed state is entered. -/
theorem claim_C6_counterexample :
    process_audios_merge [] = .ok MergeOutcome.skippedWrite ∧
    ∀ e, process_audios_merge [] ≠ .error e := by
  refine ⟨rfl, ?_⟩
  intro e h
  simp [process_audios_merge] at h

/-- C6 as amended: if zero clips survived processing the merge step skips
writing the output file and returns normally (only printing a message); the
output file is written — with the concatenation of the clips — exactly when
at least one clip exists. -/
theorem claim_C6_merge_skip (clips : List AudioClip) :
    (clips = [] → process_audios_merge clips = .ok .skippedWrite) ∧
    ((∃ m, process_audios_merge clips = .ok (.wrote m)) ↔ clips ≠ []) := by
  constructor
  · rintro rfl
    rfl
  · constructor
    · rintro ⟨m, hm⟩ rfl
      simp [process_audios_merge] at hm
    · intro hne
      have hemp : clips.isEmpty = false := by
        simpa [List.isEmpty_iff] using hne
      exact ⟨concatenate_audioclips clips, by simp [process_audios_merge, hemp]⟩

/-- Witness for the amended C6: the empty clip list skips the write, a
one-clip list writes. -/
theorem claim_C6_merge_skip_witness :
    process_audios_merge [] = .ok .skippedWrite ∧
    ∃ m, process_audios_merge [⟨(30 : ℚ)⟩] = .ok (.wrote m) :=
  ⟨(claim_C6_merge_skip []).1 rfl,
   (claim_C6_merge_skip [⟨(30 : ℚ)⟩]).2.mpr (by simp)⟩

/-- C9: `clean_up` is idempotent — on any filesystem, calling it twice on the
same directory raises on neither call and leaves the directory absent after
each call; the second call, finding it absent, changes nothing. -/
theorem claim_C9_clean_up_idempotent (fs : DirState) (d : String) :
    ∃ fs1 fs2, clean_up fs d = .ok fs1 ∧ fs1 d = false ∧
      clean_up fs1 d = .ok fs2 ∧ fs2 d = false := by
  by_cases h : fs d = true
  · refine ⟨fun p => if p = d then false else fs p,
      fun p => if p = d then false else fs p, ?_, ?_, ?_, ?_⟩
    · simp [clean_up, rmtree, h]
    · simp
    · have h1 : (fun p => if p = d then false else fs p) d = false := by simp
      simp [clean_up, h1]
    · simp
  · have h0 : fs d = false := by simpa using h
    exact ⟨fs, fs, by simp [clean_up, h0], h0, by simp [clean_up, h0], h0⟩

/-- C5: the download phase raises the no-downloads error exactly when the
count of successful downloads is zero after all sources were attempted, and
otherwise carries the positive count onward. -/
theorem claim_C5_no_downloads (results : List Bool) :
    ((∃ msg, downloadPhaseOutcome results = .error msg) ↔ results.count true = 0) ∧
    ((∃ c, downloadPhaseOutcome results = .ok c) ↔ results.count true ≠ 0) := by
  unfold downloadPhaseOutcome
  by_cases h : results.count true = 0 <;> simp [h]

/-- C4: once the dispatcher is done, the completion queue holds exactly one
stop signal per processing worker, every stop signal sits after every
downloaded path, and a worker that exits — which it does only by consuming
its own stop signal — does so at a pop index past every path, so all queued
paths were already popped. -/
theorem claim_C4_stop_signals (paths : List String) (schedule : Nat → Nat)
    (w i : Nat)
    (hexit : workerExitsAt (queueEntries paths num_process_workers) schedule w i) :
    (queueEntries paths num_process_workers).count none = num_process_workers ∧
    (∀ j, (queueEntries paths num_process_workers)[j]? = some none →
      paths.length ≤ j) ∧
    (∀ j, j < paths.length → j < i) := by
  have hafter : ∀ j, (queueEntries paths num_process_workers)[j]? = some none →
      paths.length ≤ j := by
    intro j hj
    by_contra hlt
    push_neg at hlt
    have hjm : j < (paths.map some).length := by simpa using hlt
    rw [queueEntries, List.getElem?_append_left hjm, List.getElem?_map,
      List.getElem?_eq_getElem hlt] at hj
    simp at hj
  refine ⟨?_, hafter, ?_⟩
  · rw [queueEntries, List.count_append]
    have h1 : (paths.map some).count (none : Option String) = 0 := by
      rw [List.count_eq_zero]
      simp
    rw [h1, List.count_replicate]
    simp
  · intro j hj
    have := hafter i hexit.1
    omega

/-- Witness for C4: one downloaded path and eleven stop signals; the worker
performing every pop exits at pop index 1, after the path was popped. -/
theorem claim_C4_stop_signals_witness :
    workerExitsAt (queueEntries ["a.mp3"] num_process_workers) (fun _ => 0) 0 1 ∧
    ((queueEntries ["a.mp3"] num_process_workers).count none = num_process_workers ∧
     (∀ j, (queueEntries ["a.mp3"] num_process_workers)[j]? = some none →
       (["a.mp3"] : List String).length ≤ j) ∧
     (∀ j, j < (["a.mp3"] : List String).length → j < 1)) := by
  have hexit : workerExitsAt (queueEntries ["a.mp3"] num_process_workers)
      (fun _ => 0) 0 1 := by
    unfold workerExitsAt queueEntries num_process_workers
    decide
  exact ⟨hexit, claim_C4_stop_signals ["a.mp3"] (fun _ => 0) 0 1 hexit⟩

/-- C7: before any pipeline work, `main` validates the command line — a wrong
argument count prints the usage message and exits with code 1, a
`NumberOfVideos` or `AudioDuration` that does not parse as an integer exits
with code 1, `NumberOfVideos <= 10` or `AudioDuration < 20` exits with code 1
naming the violated constraint, and otherwise validation passes with the
parsed values. -/
theorem claim_C7_cli_validation (argv : List String) :
    (argv.length ≠ 5 →
      validate_args argv = .exit1 "Usage: python 102316091.py <SingerName> <NumberOfVideos> <AudioDuration> <OutputFileName>") ∧
    ∀ prog name a b out, argv = [prog, name, a, b, out] →
      ((pyInt a = none ∨ pyInt b = none) →
        validate_args argv = .exit1 "Error: NumberOfVideos and AudioDuration must be integers.") ∧
      ∀ nv ad, pyInt a = some nv → pyInt b = some ad →
        (nv ≤ 10 →
          validate_args argv = .exit1 "Error: NumberOfVideos must be greater than 10.") ∧
        (10 < nv → ad < 20 →
          validate_args argv = .exit1 "Error: AudioDuration must be greater than or equal to 20.") ∧
        (10 < nv → 20 ≤ ad → validate_args argv = .valid name nv ad out) := by
  constructor
  · intro hlen
    rw [validate_args, if_pos hlen]
  · rintro prog name a b out rfl
    constructor
    · intro hbad
      rcases hpa : pyInt a with _ | nv
      · simp [validate_args, hpa]
      · rcases hpb : pyInt b with _ | ad
        · simp [validate_args, hpa, hpb]
        · rw [hpa] at hbad
          rw [hpb] at hbad
          rcases hbad with hc | hc <;> exact absurd hc (by simp)
    · intro nv ad hpa hpb
      refine ⟨?_, ?_, ?_⟩
      · intro h10
        simp [validate_args, hpa, hpb, h10]
      · intro h10 h20
        have h1 : ¬ nv ≤ 10 := by omega
        simp [validate_args, hpa, hpb, h1, h20]
      · intro h10 h20
        have h1 : ¬ nv ≤ 10 := by omega
        have h2 : ¬ ad < 20 := by omega
        simp [validate_args, hpa, hpb, h1, h2]

/-- Witness for C7: a valid command line passes validation with the parsed
values, and a one-argument command line gets the usage message. -/
theorem claim_C7_cli_validation_witness :
    validate_args ["102316091.py", "Artist", "12", "25", "out.mp3"] =
      .valid "Artist" 12 25 "out.mp3" ∧
    validate_args ["102316091.py"] =
      .exit1 "Usage: python 102316091.py <SingerName> <NumberOfVideos> <AudioDuration> <OutputFileName>" := by
  constructor
  · exact ((((claim_C7_cli_validation _).2 "102316091.py" "Artist" "12" "25" "out.mp3"
      rfl).2 12 25 (by decide) (by decide)).2.2 (by norm_num) (by norm_num))
  · exact (claim_C7_cli_validation ["102316091.py"]).1 (by decide)

/-- C10: whenever the search resolved at least one URL, `download_and_convert`
fails with an unbound-name error on `duration` — the name appears in the
thread arguments at line 162 but is bound by no scope of the function — and
it does so before any download is dispatched, so the pipelined path can never
complete. -/
theorem claim_C10_duration_name_error (urls : List String)
    (fetchOk : String → Bool) (_hne : urls ≠ []) :
    (download_and_convert urls fetchOk).dispatched = [] ∧
    (download_and_convert urls fetchOk).outcome =
      Except.error (.nameError "duration") := by
  have h : download_and_convert_scope.contains "duration" = false := by decide
  simp [download_and_convert, lookupName, h]
  exact ⟨rfl, rfl⟩

/-- Witness for C10: with one resolved URL and a fetch that would succeed,
the run still dispatches nothing and raises the `NameError`. -/
theorem claim_C10_duration_name_error_witness :
    (["https://example/watch1"] ≠ ([] : List String)) ∧
    ((download_and_convert ["https://example/watch1"] (fun _ => true)).dispatched = [] ∧
     (download_and_convert ["https://example/watch1"] (fun _ => true)).outcome =
       Except.error (.nameError "duration")) :=
  ⟨by simp,
   claim_C10_duration_name_error ["https://example/watch1"] (fun _ => true) (by simp)⟩

/-- C1 fails on the code: on a command line that passes validation, `main`
reaches line 303, which calls `main` itself with four positional arguments
although `def main():` declares none — a `TypeError` is raised, no temporary
directory has been created, and `clean_up` is never invoked (no statement of
`main` calls it), so cleanup does not run even once. -/
theorem claim_C1_main_no_cleanup :
    py_main ["102316091.py", "Coldplay", "12", "20", "mashup.mp3"] =
      ⟨some (.typeError "main() takes 0 positional arguments but 4 were given"),
        none, 0, 0⟩ := by
  decide
